import Mathlib

/-!
Shallow embedding of the bl602-hal GPIO and delay modules
(`src/gpio.rs`, `src/delay.rs`).

Register state touched by the embedded operations is modelled explicitly:
each pin's configuration fields (function select, input enable, pull-up,
pull-down, drive strength, schmitt filter) from its `gpio_cfgctlN`
register, the per-pin output-enable bit from `gpio_cfgctl34`, the per-pin
output latch from `gpio_cfgctl32`, the per-pin interrupt-mask bit from
`gpio_int_mask1`, and the eight 3-bit UART signal selector fields of
`uart_sig_sel_0`.  Machine integers are `Nat` with explicit `% 2 ^ w`
where wrapping matters.
-/

namespace BL602

/-- Modulus of 64-bit machine arithmetic, `2 ^ 64`. -/
def U64 : Nat := 18446744073709551616

/-- Per-pin configuration fields of a `gpio_cfgctlN` register, in the order
the source writes them in `into_pin_with_mode`: `reg_gpio_i_func_sel`,
`reg_gpio_i_ie`, `reg_gpio_i_pu`, `reg_gpio_i_pd`, `reg_gpio_i_drv`,
`reg_gpio_i_smt`. -/
structure PinCfg where
  funcSel : Nat
  ie : Bool
  pu : Bool
  pd : Bool
  drv : Nat
  smt : Bool
deriving DecidableEq, Repr

/-- State of the GLB registers touched by the embedded operations. -/
structure GlbState where
  pinCfg : Fin 23 → PinCfg
  oe : Fin 23 → Bool
  outLatch : Fin 23 → Bool
  intMask : Fin 23 → Bool
  uartSigSel : Fin 8 → Nat
deriving Repr

/-- Embeds `into_pin_with_mode` (gpio.rs lines 372-391): one
field-preserving update of the pin's `gpio_cfgctlN` fields (function
select from `mode`, input enable from `ie`, pull-up from `pu`, pull-down
from `pd`, drive strength forced to 0, schmitt filter cleared), followed
by a second, separate write of the pin's output-enable bit in
`gpio_cfgctl34` to the negation of `ie`.  The 5-bit function-select field
truncates its argument modulo 32. -/
def into_pin_with_mode (pin : Fin 23) (mode : Nat) (pu pd ie : Bool)
    (st : GlbState) : GlbState :=
  { st with
    pinCfg := Function.update st.pinCfg pin
      { funcSel := mode % 32, ie := ie, pu := pu, pd := pd, drv := 0, smt := false },
    oe := Function.update st.oe pin (!ie) }

/-- Embeds `into_floating_output`: `into_pin_with_mode(11, false, false, false)`. -/
def into_floating_output (pin : Fin 23) (st : GlbState) : GlbState :=
  into_pin_with_mode pin 11 false false false st

/-- Embeds `into_pull_up_output`: `into_pin_with_mode(11, true, false, false)`. -/
def into_pull_up_output (pin : Fin 23) (st : GlbState) : GlbState :=
  into_pin_with_mode pin 11 true false false st

/-- Embeds `into_pull_down_output`: `into_pin_with_mode(11, false, true, false)`. -/
def into_pull_down_output (pin : Fin 23) (st : GlbState) : GlbState :=
  into_pin_with_mode pin 11 false true false st

/-- Embeds `into_floating_input`: `into_pin_with_mode(11, false, false, true)`. -/
def into_floating_input (pin : Fin 23) (st : GlbState) : GlbState :=
  into_pin_with_mode pin 11 false false true st

/-- Embeds `into_pull_up_input`: `into_pin_with_mode(11, true, false, true)`. -/
def into_pull_up_input (pin : Fin 23) (st : GlbState) : GlbState :=
  into_pin_with_mode pin 11 true false true st

/-- Embeds `into_pull_down_input`: `into_pin_with_mode(11, false, true, true)`. -/
def into_pull_down_input (pin : Fin 23) (st : GlbState) : GlbState :=
  into_pin_with_mode pin 11 false true true st

/-- Embeds `into_pull_down_pwm`: `into_pin_with_mode(8, false, true, true)`. -/
def into_pull_down_pwm (pin : Fin 23) (st : GlbState) : GlbState :=
  into_pin_with_mode pin 8 false true true st

/-- Embeds `into_pull_up_pwm` exactly as the source writes it:
`into_pin_with_mode(8, false, true, true)` (pull-up argument `false`,
pull-down argument `true`). -/
def into_pull_up_pwm (pin : Fin 23) (st : GlbState) : GlbState :=
  into_pin_with_mode pin 8 false true true st

/-- Embeds `into_floating_pwm`: `into_pin_with_mode(8, false, false, true)`. -/
def into_floating_pwm (pin : Fin 23) (st : GlbState) : GlbState :=
  into_pin_with_mode pin 8 false false true st

/-- Embeds `into_uart_sigN`: `into_pin_with_mode(7, true, false, true)`. -/
def into_uart_sig (pin : Fin 23) (st : GlbState) : GlbState :=
  into_pin_with_mode pin 7 true false true st

/-- Embeds `into_spi_*`: `into_pin_with_mode(4, true, false, true)`. -/
def into_spi (pin : Fin 23) (st : GlbState) : GlbState :=
  into_pin_with_mode pin 4 true false true st

/-- Embeds `into_i2c_*`: `into_pin_with_mode(6, true, false, true)`. -/
def into_i2c (pin : Fin 23) (st : GlbState) : GlbState :=
  into_pin_with_mode pin 6 true false true st

/-- C1: For every pin and every non-PWM mode transition of the §4.3 table,
the pin's configuration fields after the transition are exactly the table
row (function select 11 for the six GPIO modes, 7 for UART, 4 for SPI,
6 for I2C; pull-up/pull-down/input-enable per row; drive strength 0;
schmitt filter clear), and the output-enable bit equals the negation of
the input-enable bit. -/
theorem gpio_mode_transitions_match_table (pin : Fin 23) (st : GlbState) :
    ((into_floating_output pin st).pinCfg pin = ⟨11, false, false, false, 0, false⟩ ∧
      (into_floating_output pin st).oe pin = !((into_floating_output pin st).pinCfg pin).ie) ∧
    ((into_pull_up_output pin st).pinCfg pin = ⟨11, false, true, false, 0, false⟩ ∧
      (into_pull_up_output pin st).oe pin = !((into_pull_up_output pin st).pinCfg pin).ie) ∧
    ((into_pull_down_output pin st).pinCfg pin = ⟨11, false, false, true, 0, false⟩ ∧
      (into_pull_down_output pin st).oe pin = !((into_pull_down_output pin st).pinCfg pin).ie) ∧
    ((into_floating_input pin st).pinCfg pin = ⟨11, true, false, false, 0, false⟩ ∧
      (into_floating_input pin st).oe pin = !((into_floating_input pin st).pinCfg pin).ie) ∧
    ((into_pull_up_input pin st).pinCfg pin = ⟨11, true, true, false, 0, false⟩ ∧
      (into_pull_up_input pin st).oe pin = !((into_pull_up_input pin st).pinCfg pin).ie) ∧
    ((into_pull_down_input pin st).pinCfg pin = ⟨11, true, false, true, 0, false⟩ ∧
      (into_pull_down_input pin st).oe pin = !((into_pull_down_input pin st).pinCfg pin).ie) ∧
    ((into_uart_sig pin st).pinCfg pin = ⟨7, true, true, false, 0, false⟩ ∧
      (into_uart_sig pin st).oe pin = !((into_uart_sig pin st).pinCfg pin).ie) ∧
    ((into_spi pin st).pinCfg pin = ⟨4, true, true, false, 0, false⟩ ∧
      (into_spi pin st).oe pin = !((into_spi pin st).pinCfg pin).ie) ∧
    ((into_i2c pin st).pinCfg pin = ⟨6, true, true, false, 0, false⟩ ∧
      (into_i2c pin st).oe pin = !((into_i2c pin st).pinCfg pin).ie) := by
  simp [into_floating_output, into_pull_up_output, into_pull_down_output,
    into_floating_input, into_pull_up_input, into_pull_down_input,
    into_uart_sig, into_spi, into_i2c, into_pin_with_mode,
    Function.update_same]

/-- Embeds `into_uart_mode` (gpio.rs lines 122-131): writes the selector
code `mode` into the signal's dedicated `uart_sig_N_sel` field of
`uart_sig_sel_0`, truncated to the field's 3 bits. -/
def into_uart_mode (sig : Fin 8) (mode : Nat) (st : GlbState) : GlbState :=
  { st with uartSigSel := Function.update st.uartSigSel sig (mode % 8) }

/-- UART peripheral roles a signal multiplexer can target, one per
`into_uartX_Y` routing operation. -/
inductive UartRole where
  | uart0Rts | uart0Cts | uart0Tx | uart0Rx
  | uart1Rts | uart1Cts | uart1Tx | uart1Rx
deriving DecidableEq, Repr

/-- Embeds the eight routing operations `into_uart0_rts` ... `into_uart1_rx`
(gpio.rs lines 81-118): each calls `into_uart_mode` with the constant the
source passes (0, 1, 2, 3, 4, 5, 6, 7 respectively). -/
def route_uart_sig (sig : Fin 8) (r : UartRole) (st : GlbState) : GlbState :=
  match r with
  | .uart0Rts => into_uart_mode sig 0 st
  | .uart0Cts => into_uart_mode sig 1 st
  | .uart0Tx => into_uart_mode sig 2 st
  | .uart0Rx => into_uart_mode sig 3 st
  | .uart1Rts => into_uart_mode sig 4 st
  | .uart1Cts => into_uart_mode sig 5 st
  | .uart1Tx => into_uart_mode sig 6 st
  | .uart1Rx => into_uart_mode sig 7 st

/-- Position of a role in the ordering the spec states:
UART0 RTS/CTS/TX/RX = 0-3, UART1 RTS/CTS/TX/RX = 4-7. -/
def uartRoleIndex (r : UartRole) : Nat :=
  match r with
  | .uart0Rts => 0
  | .uart0Cts => 1
  | .uart0Tx => 2
  | .uart0Rx => 3
  | .uart1Rts => 4
  | .uart1Cts => 5
  | .uart1Tx => 6
  | .uart1Rx => 7

/-- Enumeration of all eight roles. -/
def allUartRoles : List UartRole :=
  [.uart0Rts, .uart0Cts, .uart0Tx, .uart0Rx, .uart1Rts, .uart1Cts, .uart1Tx, .uart1Rx]

/-- Embeds `set_high_inner` (gpio.rs lines 453-456): sets the pin's
`reg_gpio_i_o` output-latch bit in `gpio_cfgctl32`. -/
def set_high_inner (pin : Fin 23) (st : GlbState) : GlbState :=
  { st with outLatch := Function.update st.outLatch pin true }

/-- Embeds `set_low_inner` (gpio.rs lines 459-462): clears the pin's
`reg_gpio_i_o` output-latch bit in `gpio_cfgctl32`. -/
def set_low_inner (pin : Fin 23) (st : GlbState) : GlbState :=
  { st with outLatch := Function.update st.outLatch pin false }

/-- Embeds `is_output_high_inner` (gpio.rs lines 468-471): reads the pin's
`reg_gpio_i_o` bit of `gpio_cfgctl32`. -/
def is_output_high_inner (pin : Fin 23) (st : GlbState) : Bool :=
  st.outLatch pin

/-- Embeds `is_output_low_inner` (gpio.rs lines 473-476): reads the
negation of the pin's `reg_gpio_i_o` bit. -/
def is_output_low_inner (pin : Fin 23) (st : GlbState) : Bool :=
  !(st.outLatch pin)

/-- Embeds `ToggleableOutputPin::toggle` (gpio.rs lines 617-624): if the
output latch reads high, drive it low, else drive it high. -/
def toggle (pin : Fin 23) (st : GlbState) : GlbState :=
  if is_output_high_inner pin st then set_low_inner pin st else set_high_inner pin st

/-- Embeds `enable_interrupt` (gpio.rs lines 532-538): read-modify-write of
`gpio_int_mask1` setting the pin's `reg_gpio_i_mask` field to `unmasked`
(modelled as `false` = not masked). -/
def enable_interrupt (pin : Fin 23) (st : GlbState) : GlbState :=
  { st with intMask := Function.update st.intMask pin false }

/-- Embeds `disable_interrupt` (gpio.rs lines 540-546): read-modify-write
of `gpio_int_mask1` setting the pin's `reg_gpio_i_mask` field to `masked`
(modelled as `true`). -/
def disable_interrupt (pin : Fin 23) (st : GlbState) : GlbState :=
  { st with intMask := Function.update st.intMask pin true }

/-- Mode tags a pin handle can carry (the type-state parameters of
`PinN<MODE>` in the source). -/
inductive PinModeTag where
  | inputFloating | inputPullUp | inputPullDown
  | outputFloating | outputPullUp | outputPullDown
  | pwmFloating | pwmPullUp | pwmPullDown
  | uart | spi | i2c
deriving DecidableEq, Repr

/-- Embeds the `Parts` aggregate (gpio.rs lines 270-282): one handle tag
per pin, one per UART multiplexer, and the clock-configuration handle. -/
structure Parts where
  pins : Fin 23 → PinModeTag
  muxes : Fin 8 → UartRole
  clkCfg : Unit

/-- Embeds `GlbExt::split` (gpio.rs lines 253-268): constructs the `Parts`
aggregate with every pin handle at `Input<Floating>`, every multiplexer
handle at `Uart0Cts`, and the `ClkCfg` handle. -/
def split : Parts :=
  { pins := fun _ => .inputFloating,
    muxes := fun _ => .uart0Cts,
    clkCfg := () }

/-- A concrete register state (all pins at the reset configuration the
split operation assumes: software-GPIO floating input, output disabled,
latch low, interrupts masked, selectors at the UART0-CTS reset code). -/
def resetState : GlbState :=
  { pinCfg := fun _ => ⟨11, true, false, false, 0, false⟩,
    oe := fun _ => false,
    outLatch := fun _ => false,
    intMask := fun _ => true,
    uartSigSel := fun _ => 1 }

/-- C2 (code evaluation): at pin 0 from the reset state, the source's
`into_pull_up_pwm` writes function select 8, input enable 1, pull-up 0 and
pull-down 1 — the same pattern as `into_pull_down_pwm`, not the claimed
pull-up1/pull-down0 — while the pull-down and floating variants do match
the claim. -/
theorem into_pull_up_pwm_writes_pull_down :
    (into_pull_up_pwm 0 resetState).pinCfg 0 = ⟨8, true, false, true, 0, false⟩ ∧
    (into_pull_down_pwm 0 resetState).pinCfg 0 = ⟨8, true, false, true, 0, false⟩ ∧
    (into_floating_pwm 0 resetState).pinCfg 0 = ⟨8, true, false, false, 0, false⟩ := by
  refine ⟨?_, ?_, ?_⟩ <;> rfl

/-- C6: for every multiplexer instance, every target role and every state,
the code written into the instance's selector field is below 8, equals the
role's position in the UART0 RTS/CTS/TX/RX = 0-3, UART1 RTS/CTS/TX/RX =
4-7 ordering, distinct roles get distinct codes, and in particular routing
instance 2 to UART1-TX writes 6. -/
theorem uart_mux_selector_codes (sig : Fin 8) (r : UartRole) (st : GlbState) :
    (route_uart_sig sig r st).uartSigSel sig = uartRoleIndex r ∧
    uartRoleIndex r < 8 ∧
    (allUartRoles.map uartRoleIndex).Nodup ∧
    (route_uart_sig 2 .uart1Tx st).uartSigSel 2 = 6 := by
  refine ⟨?_, ?_, ?_, ?_⟩
  · cases r <;> simp [route_uart_sig, into_uart_mode, Function.update_same, uartRoleIndex]
  · cases r <;> simp [uartRoleIndex]
  · decide
  · simp [route_uart_sig, into_uart_mode, Function.update_same]

/-- C7: the split operation yields the aggregate whose 23 pin handles are
all tagged floating-input, whose 8 multiplexer handles are all tagged
UART0-CTS, and which carries the clock-configuration handle. -/
theorem split_defaults :
    (∀ i : Fin 23, split.pins i = .inputFloating) ∧
    (∀ j : Fin 8, split.muxes j = .uart0Cts) ∧
    split.clkCfg = () := by
  refine ⟨fun i => rfl, fun j => rfl, rfl⟩

/-- Wrapping 64-bit subtraction `a.wrapping_sub(b)` on values below
`U64`. -/
def wrappingSub64 (a b : Nat) : Nat :=
  (a + (U64 - b % U64)) % U64

/-- Embeds `McycleDelay::cycles_since` (delay.rs lines 33-35): the current
counter read minus `previous_cycle_count`, with wraparound. `current` is
the value `mcycle::read64()` returns at the call. -/
def cycles_since (current previous_cycle_count : Nat) : Nat :=
  wrappingSub64 current previous_cycle_count

/-- Embeds the loop of `McycleDelay::delay_cycles` (delay.rs lines 39-43)
over the stream of counter values the successive `mcycle` reads return:
`start` is the read captured at entry; the loop keeps spinning while
`cycles_since start <= cycle_count` and exits at the first read whose
elapsed count exceeds `cycle_count`, returning that elapsed count (`none`
if the sample stream is exhausted first). -/
def delay_cycles_loop (start cycle_count : Nat) : List Nat → Option Nat
  | [] => none
  | c :: rest =>
    if cycle_count < cycles_since c start then some (cycles_since c start)
    else delay_cycles_loop start cycle_count rest

/-- Embeds the cycle-count computation of `delay_us` (delay.rs line 52):
`us * (core_frequency as u64) / 1_000_000` in wrapping 64-bit
arithmetic. -/
def delay_us_cycles (us freq : Nat) : Nat :=
  us * freq % U64 / 1000000

/-- Embeds the cycle-count computation of `delay_ms` (delay.rs line 64):
`ms * (core_frequency as u64) / 1000` in wrapping 64-bit arithmetic. -/
def delay_ms_cycles (ms freq : Nat) : Nat :=
  ms * freq % U64 / 1000

/-- C5: for every 64-bit start value `s` and every true elapsed count
`e` below `2 ^ 64`, reading the counter at `(s + e) % 2 ^ 64` — i.e. after
the counter advanced by `e`, wrapping past the 64-bit maximum if needed —
makes `cycles_since` return exactly `e`; and for every 64-bit current read
`c`, the returned value is `(c - s)` reduced modulo `2 ^ 64`. -/
theorem cycles_since_wraparound (s e c : Nat) (_hs : s < U64) (he : e < U64)
    (_hc : c < U64) :
    cycles_since ((s + e) % U64) s = e ∧
    (cycles_since c s : Int) = ((c : Int) - (s : Int)) % (U64 : Int) := by
  simp only [cycles_since, wrappingSub64, U64] at *
  constructor
  · omega
  · omega

/-- C5 witness: a counter five below the 64-bit maximum that advances by
ten wraps, and `cycles_since` still reports ten. -/
theorem cycles_since_wraparound_witness :
    (U64 - 5 < U64 ∧ 10 < U64 ∧ 4 < U64) ∧
      (cycles_since ((U64 - 5 + 10) % U64) (U64 - 5) = 10 ∧
        (cycles_since 4 (U64 - 5) : Int) =
          ((4 : Int) - ((U64 - 5 : Nat) : Int)) % (U64 : Int)) :=
  ⟨⟨by decide, by decide, by decide⟩,
    cycles_since_wraparound (U64 - 5) 10 4 (by decide) (by decide) (by decide)⟩

/-- C4: whenever the busy-wait loop of `delay_cycles` exits, the elapsed
cycle count it observed at exit is at least `cycle_count + 1`: the loop
spins exactly while the elapsed count is at most `cycle_count`. -/
theorem delay_cycles_exit_ge (start cycle_count : Nat) (samples : List Nat)
    (e : Nat) (h : delay_cycles_loop start cycle_count samples = some e) :
    cycle_count + 1 ≤ e := by
  induction samples with
  | nil => simp [delay_cycles_loop] at h
  | cons c rest ih =>
    by_cases hc : cycle_count < cycles_since c start
    · simp [delay_cycles_loop, hc] at h
      omega
    · simp [delay_cycles_loop, hc] at h
      exact ih h

/-- C4 witness: with start 0 and requested count 2, the loop skips the
samples with elapsed count 1 and 2 and exits at elapsed count 3 ≥ 2 + 1. -/
theorem delay_cycles_exit_ge_witness :
    delay_cycles_loop 0 2 [1, 2, 3] = some 3 ∧ 2 + 1 ≤ 3 :=
  ⟨by decide, delay_cycles_exit_ge 0 2 [1, 2, 3] 3 (by decide)⟩

/-- C3 counterexample: the claim fails as stated when the 64-bit product
wraps. At `us = 2 ^ 34` and frequency `2 ^ 30` (a valid u32), `us * freq`
equals `2 ^ 64` and wraps to 0, so the computed cycle count is 0 and the
minimum wait of one extra cycle — `(0 + 1)` cycles, i.e. `10 ^ 6` in the
cross-multiplied comparison — is far below the exactly requested
`us * freq` cycles. -/
theorem delay_us_claim_counterexample :
    ¬ ((delay_us_cycles (2 ^ 34) (2 ^ 30) + 1) * 1000000 ≥ 2 ^ 34 * 2 ^ 30) := by
  decide

/-- C3 (amended): whenever the 64-bit product does not overflow
(`t * f < 2 ^ 64`), the truncated cycle count plus the strict-inequality
wait's extra cycle is at least the exact requested duration in cycles:
`(cycles + 1) * 10 ^ 6 ≥ t * f` for `delay_us` and
`(cycles + 1) * 10 ^ 3 ≥ t * f` for `delay_ms`. -/
theorem delay_actual_ge_requested (t f : Nat) (h : t * f < U64) :
    (delay_us_cycles t f + 1) * 1000000 ≥ t * f ∧
    (delay_ms_cycles t f + 1) * 1000 ≥ t * f := by
  have hm : t * f % U64 = t * f := Nat.mod_eq_of_lt h
  constructor
  · simp only [delay_us_cycles, hm, ge_iff_le]
    omega
  · simp only [delay_ms_cycles, hm, ge_iff_le]
    omega

/-- C3 witness: three microseconds (resp. milliseconds) at one megahertz
do not overflow, and the waited cycles cover the request. -/
theorem delay_actual_ge_requested_witness :
    3 * 1000000 < U64 ∧
      ((delay_us_cycles 3 1000000 + 1) * 1000000 ≥ 3 * 1000000 ∧
        (delay_ms_cycles 3 1000000 + 1) * 1000 ≥ 3 * 1000000) :=
  ⟨by decide, delay_actual_ge_requested 3 1000000 (by decide)⟩

/-- C8: every pin mode transition is idempotent on the register state —
running `into_pin_with_mode` twice with the same arguments (this covers
all the named pin transitions, which are instances of it at fixed
arguments) equals running it once, and likewise for the multiplexer's
`into_uart_mode`. -/
theorem mode_transition_idempotent (pin : Fin 23) (mode : Nat)
    (pu pd ie : Bool) (sig : Fin 8) (m : Nat) (st : GlbState) :
    into_pin_with_mode pin mode pu pd ie (into_pin_with_mode pin mode pu pd ie st) =
      into_pin_with_mode pin mode pu pd ie st ∧
    into_uart_mode sig m (into_uart_mode sig m st) = into_uart_mode sig m st := by
  constructor
  · simp [into_pin_with_mode, Function.update_idem]
  · simp [into_uart_mode, Function.update_idem]

/-- C9: toggling an output pin twice restores the whole register state
(in particular the output latch), for either starting latch value, and a
single toggle writes the opposite of the latch value it read. -/
theorem toggle_toggle_id (pin : Fin 23) (st : GlbState) :
    toggle pin (toggle pin st) = st ∧
    (toggle pin st).outLatch pin = !(st.outLatch pin) := by
  unfold toggle is_output_high_inner set_low_inner set_high_inner
  cases h : st.outLatch pin <;>
    simp [h, Function.update_same, Function.update_idem] <;>
    (conv in Function.update st.outLatch pin _ => rw [show (_ : Bool) = st.outLatch pin from h.symm]) <;>
    simp [Function.update_eq_self]

/-- C10: `enable_interrupt` leaves the pin unmasked and `disable_interrupt`
leaves it masked, and both leave every other pin's mask bit in the shared
`gpio_int_mask1` register — and every other modelled register — unchanged. -/
theorem interrupt_mask_frame (st : GlbState) (pin j : Fin 23) (h : j ≠ pin) :
    (enable_interrupt pin st).intMask pin = false ∧
    (disable_interrupt pin st).intMask pin = true ∧
    (enable_interrupt pin st).intMask j = st.intMask j ∧
    (disable_interrupt pin st).intMask j = st.intMask j ∧
    (enable_interrupt pin st).pinCfg = st.pinCfg ∧
    (enable_interrupt pin st).oe = st.oe ∧
    (enable_interrupt pin st).outLatch = st.outLatch ∧
    (enable_interrupt pin st).uartSigSel = st.uartSigSel := by
  refine ⟨?_, ?_, ?_, ?_, rfl, rfl, rfl, rfl⟩ <;>
    simp [enable_interrupt, disable_interrupt, Function.update_same,
      Function.update_noteq h]

/-- C10 witness: enabling pin 0's interrupt from the reset state unmasks
pin 0 and leaves pin 1's mask bit (and the other registers) untouched. -/
theorem interrupt_mask_frame_witness :
    (1 : Fin 23) ≠ 0 ∧
      ((enable_interrupt 0 resetState).intMask 0 = false ∧
        (disable_interrupt 0 resetState).intMask 0 = true ∧
        (enable_interrupt 0 resetState).intMask 1 = resetState.intMask 1 ∧
        (disable_interrupt 0 resetState).intMask 1 = resetState.intMask 1 ∧
        (enable_interrupt 0 resetState).pinCfg = resetState.pinCfg ∧
        (enable_interrupt 0 resetState).oe = resetState.oe ∧
        (enable_interrupt 0 resetState).outLatch = resetState.outLatch ∧
        (enable_interrupt 0 resetState).uartSigSel = resetState.uartSigSel) :=
  ⟨by decide, interrupt_mask_frame resetState 0 1 (by decide)⟩

end BL602
